import Mathlib

/-!
Shallow embedding of the client-side state synchronization and input
pipeline of the promptandconquer client (src/client/src/App.tsx and the
GroundGrid component).  Pure functions of the source become Lean
functions; React refs and state become explicit fields of an `AppState`
record; remote-procedure invocations become an explicit effect list.
-/

namespace PromptAndConquer

/-- Opaque identity token; its canonical hex representation is the string
used as mirror key (SpacetimeDB `Identity.toHexString`). -/
structure Identity where
  hex : String
deriving DecidableEq

def Identity.toHexString (i : Identity) : String := i.hex

/-- A row of the `player` table as mirrored by the client. -/
structure PlayerData where
  identity : Identity
  username : String
  characterClass : String
deriving DecidableEq

/-- The input snapshot held in `currentInputRef`: eight boolean action
flags plus a sequence counter. -/
structure InputState where
  forward : Bool
  backward : Bool
  left : Bool
  right : Bool
  sprint : Bool
  jump : Bool
  attack : Bool
  castSpell : Bool
  sequence : Nat
deriving DecidableEq

/-- Embedding of `determineAnimation` (App.tsx lines 178-220): priority
chain attack, castSpell, jump, then movement direction resolved by an
else-if chain, finally `idle`. -/
def determineAnimation (input : InputState) : String :=
  if input.attack then "attack1"
  else if input.castSpell then "cast"
  else if input.jump then "jump"
  else
    let isMoving := input.forward || input.backward || input.left || input.right
    if !isMoving then "idle"
    else
      let direction :=
        if input.forward && !input.backward then "forward"
        else if input.backward && !input.forward then "back"
        else if input.left && !input.right then "left"
        else if input.right && !input.left then "right"
        else if input.forward && input.left then "left"
        else if input.forward && input.right then "right"
        else if input.backward && input.left then "left"
        else if input.backward && input.right then "right"
        else "forward"
      let moveType := if input.sprint then "run" else "walk"
      moveType ++ "-" ++ direction

/-- Player rotation accumulator (`playerRotationRef`, a THREE.Euler with
YXZ order); components modelled as exact rationals. -/
structure Rotation where
  x : ℚ
  y : ℚ
  z : ℚ
deriving DecidableEq

/-- A remote-procedure invocation emitted towards the SpacetimeDB server. -/
inductive RemoteCall where
  | registerPlayer (username characterClass : String)
  | toggleGridSquare (key : String)
  | updatePlayerInput (input : InputState)
deriving DecidableEq

/-- JavaScript `Map.set` on an insertion-ordered association list: replace
the value in place when the key is present, append otherwise. -/
def mapSet {α : Type} (m : List (String × α)) (k : String) (v : α) :
    List (String × α) :=
  match m with
  | [] => [(k, v)]
  | (k0, v0) :: rest =>
      if k0 = k then (k, v) :: rest else (k0, v0) :: mapSet rest k v

/-- JavaScript `Map.delete`: remove the (first) entry with the given key. -/
def mapDelete {α : Type} (m : List (String × α)) (k : String) :
    List (String × α) :=
  match m with
  | [] => []
  | (k0, v0) :: rest =>
      if k0 = k then rest else (k0, v0) :: mapDelete rest k

/-- JavaScript `Map.get` as an option-valued lookup. -/
def mapLookup {α : Type} (m : List (String × α)) (k : String) : Option α :=
  match m with
  | [] => none
  | (k0, v0) :: rest => if k0 = k then some v0 else mapLookup rest k

/-- The component state of `App` that the claims are about: the React
state hooks, the module-level `conn` handle (as a presence flag), and the
refs for input, last-sent input and the animation-frame handle. -/
structure AppState where
  connected : Bool
  connIsSome : Bool
  identity : Option Identity
  statusMessage : String
  players : List (String × PlayerData)
  localPlayer : Option PlayerData
  showJoinDialog : Bool
  currentInput : InputState
  lastSentInput : Option InputState
  animationFrameId : Option Nat
  playerRotation : Rotation
deriving DecidableEq

/-- Initial state from the `useState`/`useRef` initializers and the
module-level `let conn = null`. -/
def initialAppState : AppState :=
  { connected := false
    connIsSome := false
    identity := none
    statusMessage := "Connecting..."
    players := []
    localPlayer := none
    showJoinDialog := false
    currentInput :=
      { forward := false, backward := false, left := false, right := false
        sprint := false, jump := false, attack := false, castSpell := false
        sequence := 0 }
    lastSentInput := none
    animationFrameId := none
    playerRotation := { x := 0, y := 0, z := 0 } }

/-- The `onInsert` callback registered in `registerTableCallbacks`
(App.tsx lines 95-102). -/
def playerOnInsert (s : AppState) (player : PlayerData) : AppState :=
  let s1 := { s with
    players := mapSet s.players player.identity.toHexString player }
  match s.identity with
  | some id =>
      if player.identity.toHexString = id.toHexString then
        { s1 with localPlayer := some player
                  statusMessage := "Registered as " ++ player.username }
      else s1
  | none => s1

/-- The `onUpdate` callback registered in `registerTableCallbacks`
(App.tsx lines 104-113). -/
def playerOnUpdate (s : AppState) (_oldPlayer newPlayer : PlayerData) :
    AppState :=
  let s1 := { s with
    players := mapSet s.players newPlayer.identity.toHexString newPlayer }
  match s.identity with
  | some id =>
      if newPlayer.identity.toHexString = id.toHexString then
        { s1 with localPlayer := some newPlayer }
      else s1
  | none => s1

/-- The `onDelete` callback registered in `registerTableCallbacks`
(App.tsx lines 115-126). -/
def playerOnDelete (s : AppState) (player : PlayerData) : AppState :=
  let s1 := { s with
    players := mapDelete s.players player.identity.toHexString }
  match s.identity with
  | some id =>
      if player.identity.toHexString = id.toHexString then
        { s1 with localPlayer := none
                  statusMessage := "Local player deleted!" }
      else s1
  | none => s1

/-- A row-level change event delivered by the subscription for the
`player` table. -/
inductive PlayerEvent where
  | insert (p : PlayerData)
  | update (oldP newP : PlayerData)
  | delete (p : PlayerData)
deriving DecidableEq

/-- Dispatch of one change event to the registered table callbacks. -/
def applyPlayerEvent (s : AppState) (e : PlayerEvent) : AppState :=
  match e with
  | .insert p => playerOnInsert s p
  | .update oldP newP => playerOnUpdate s oldP newP
  | .delete p => playerOnDelete s p

/-- One step of the initial-load loop inside `onSubscriptionApplied`
(App.tsx lines 135-140): add the row to the map being built and pick out
the local player when its identity matches. -/
def subscriptionLoadStep (acc : AppState) (p : PlayerData) : AppState :=
  let acc1 := { acc with
    players := mapSet acc.players p.identity.toHexString p }
  match acc1.identity with
  | some id =>
      if p.identity.toHexString = id.toHexString then
        { acc1 with localPlayer := some p }
      else acc1
  | none => acc1

/-- The `onApplied` callback of the player subscription
(`onSubscriptionApplied`, App.tsx lines 130-145): when the local map is
empty and the connection handle is live, rebuild the map by iterating the
currently cached server rows (also picking out the local player);
otherwise keep the previous map. -/
def onSubscriptionApplied (s : AppState) (serverRows : List PlayerData) :
    AppState :=
  if s.players.length = 0 && s.connIsSome then
    serverRows.foldl subscriptionLoadStep { s with players := [] }
  else s

/-- Embedding of `sendInput` (App.tsx lines 222-272): the live body is a
single `return` — the server-authoritative dispatch below it is commented
out — so no state changes and no remote call is emitted. -/
def sendInput (s : AppState) (_input : InputState) :
    AppState × List RemoteCall :=
  (s, [])

/-- One invocation of `gameLoop` (App.tsx lines 369-380): when the session
is inactive the pending animation-frame handle is cancelled and cleared
and the loop does not reschedule; otherwise the sequence is incremented by
one, the snapshot is dispatched via `sendInput`, and a fresh
animation-frame handle `h` is stored. -/
def gameLoop (h : Nat) (s : AppState) : AppState × List RemoteCall :=
  if !(s.connected && s.connIsSome && s.identity.isSome) then
    ({ s with animationFrameId := none }, [])
  else
    let s1 := { s with
      currentInput := { s.currentInput with
        sequence := s.currentInput.sequence + 1 } }
    let (s2, calls) := sendInput s1 s1.currentInput
    ({ s2 with animationFrameId := some h }, calls)

/-- The `onDisconnect` handler (App.tsx lines 427-437). -/
def onDisconnect (reason : Option String) (s : AppState) : AppState :=
  { s with
    statusMessage := "Disconnected: " ++ reason.getD "No reason given"
    connIsSome := false
    identity := none
    connected := false
    players := []
    localPlayer := none }

/-- Embedding of `handleJoinGame` (App.tsx lines 454-462): without a live
connection handle the action is logged and dropped before any remote
call; otherwise the `registerPlayer` reducer is invoked and the join
dialog is hidden. -/
def handleJoinGame (s : AppState) (username characterClass : String) :
    AppState × List RemoteCall :=
  if !s.connIsSome then (s, [])
  else ({ s with showJoinDialog := false },
        [RemoteCall.registerPlayer username characterClass])

/-- Embedding of the GroundGrid `handleClick` (GroundGrid component lines
131-144): `connIsSome` is the presence of the global `window.conn`
handle, `selectedSquares` the component's selected-set state, which the
handler never touches. -/
def handleClick (connIsSome : Bool) (selectedSquares : List String)
    (key : String) : List String × List RemoteCall :=
  if !connIsSome then (selectedSquares, [])
  else (selectedSquares, [RemoteCall.toggleGridSquare key])

/-- The exact rational value of the IEEE-754 double `Math.PI`. -/
def mathPI : ℚ := 884279719003555 / 281474976710656

/-- The vertical-rotation clamp bound `Math.PI / 2.5` used in
`handleMouseMove`. -/
def vclampBound : ℚ := mathPI / (2.5 : ℚ)

/-- Embedding of `handleMouseMove` (App.tsx lines 316-329):
`pointerLocked` is whether `document.pointerLockElement` is the body;
while locked, yaw accumulates unboundedly and pitch is clamped to
±(Math.PI / 2.5). -/
def handleMouseMove (pointerLocked : Bool) (movementX movementY : ℚ)
    (rot : Rotation) : Rotation :=
  if pointerLocked then
    let sensitivity : ℚ := (0.002 : ℚ)
    { rot with
      y := rot.y - movementX * sensitivity
      x := max (-vclampBound)
            (min vclampBound (rot.x - movementY * sensitivity)) }
  else rot

/-- Reference map for the replay-equivalence claim, modelled from the
spec's words: a map keyed by the identity token's hex string, where
insert and update both set the key to the new record (an update for an
absent key behaves as an insert) and delete removes the key (deleting an
absent key is a silent no-op). -/
def refStep (f : String → Option PlayerData) (e : PlayerEvent) :
    String → Option PlayerData :=
  match e with
  | .insert p => fun k => if k = p.identity.toHexString then some p else f k
  | .update _ newP =>
      fun k => if k = newP.identity.toHexString then some newP else f k
  | .delete p => fun k => if k = p.identity.toHexString then none else f k

/-- Replay of a whole event sequence against the reference map, starting
from the empty map. -/
def refReplay (events : List PlayerEvent) : String → Option PlayerData :=
  events.foldl refStep (fun _ => none)

/-- The pure-map projection of the initial load performed by
`onSubscriptionApplied`: fold the cached server rows into an empty map. -/
def loadPlayers (rows : List PlayerData) : List (String × PlayerData) :=
  rows.foldl (fun m p => mapSet m p.identity.toHexString p) []

/-- Sample identity used to instantiate universally quantified theorems. -/
def sampleIdentityA : Identity := ⟨"aa11"⟩

/-- Sample player record with identity `sampleIdentityA`. -/
def samplePlayerA : PlayerData := ⟨sampleIdentityA, "alice", "wizard"⟩

/-- Second sample identity. -/
def sampleIdentityB : Identity := ⟨"bb22"⟩

/-- Second sample player record. -/
def samplePlayerB : PlayerData := ⟨sampleIdentityB, "bob", "paladin"⟩

/-- A connected state whose sequence counter has already exceeded the
1,000,000 guard threshold discussed by the spec. -/
def overflowState : AppState :=
  { initialAppState with
    connected := true
    connIsSome := true
    identity := some sampleIdentityA
    currentInput :=
      { initialAppState.currentInput with sequence := 1000001 } }

/-- Key-uniqueness invariant of the insertion-ordered association list:
no entry's key reappears later in the list.  JavaScript `Map`s satisfy
this by construction. -/
def goodMap {α : Type} : List (String × α) → Prop
  | [] => True
  | (k, _) :: rest => mapLookup rest k = none ∧ goodMap rest

section MapLemmas

variable {α : Type}

theorem mapLookup_mapSet (m : List (String × α)) (k : String) (v : α)
    (k2 : String) :
    mapLookup (mapSet m k v) k2 =
      if k2 = k then some v else mapLookup m k2 := by
  induction m with
  | nil =>
      simp only [mapSet, mapLookup]
      by_cases h : k2 = k
      · subst h
        simp
      · rw [if_neg (Ne.symm h), if_neg h]
  | cons hd tl ih =>
      obtain ⟨k0, v0⟩ := hd
      simp only [mapSet]
      by_cases h0 : k0 = k
      · subst h0
        rw [if_pos rfl]
        simp only [mapLookup]
        by_cases h2 : k0 = k2
        · subst h2
          simp
        · simp [h2, Ne.symm h2]
      · rw [if_neg h0]
        simp only [mapLookup]
        by_cases h2 : k0 = k2
        · subst h2
          simp [h0]
        · simp [h2, ih]

theorem mapLookup_mapDelete_ne (m : List (String × α)) (k k2 : String)
    (hne : k2 ≠ k) :
    mapLookup (mapDelete m k) k2 = mapLookup m k2 := by
  induction m with
  | nil => simp [mapDelete]
  | cons hd tl ih =>
      obtain ⟨k0, v0⟩ := hd
      simp only [mapDelete]
      by_cases h0 : k0 = k
      · subst h0
        have hne2 : ¬k0 = k2 := fun h => hne h.symm
        simp [mapLookup, hne2]
      · rw [if_neg h0]
        simp only [mapLookup]
        by_cases h2 : k0 = k2
        · simp [h2]
        · simp [h2, ih]

theorem goodMap_mapSet (m : List (String × α)) (k : String) (v : α)
    (hg : goodMap m) : goodMap (mapSet m k v) := by
  induction m with
  | nil => simp [mapSet, goodMap, mapLookup]
  | cons hd tl ih =>
      obtain ⟨k0, v0⟩ := hd
      rw [goodMap] at hg
      obtain ⟨h1, h2⟩ := hg
      simp only [mapSet]
      by_cases h0 : k0 = k
      · subst h0
        rw [if_pos rfl, goodMap]
        exact ⟨h1, h2⟩
      · rw [if_neg h0, goodMap]
        refine ⟨?_, ih h2⟩
        rw [mapLookup_mapSet]
        simp [h0, h1]

theorem goodMap_mapDelete (m : List (String × α)) (k : String)
    (hg : goodMap m) : goodMap (mapDelete m k) := by
  induction m with
  | nil => simp [mapDelete, goodMap]
  | cons hd tl ih =>
      obtain ⟨k0, v0⟩ := hd
      rw [goodMap] at hg
      obtain ⟨h1, h2⟩ := hg
      simp only [mapDelete]
      by_cases h0 : k0 = k
      · rw [if_pos h0]
        exact h2
      · rw [if_neg h0, goodMap]
        refine ⟨?_, ih h2⟩
        rw [mapLookup_mapDelete_ne tl k k0 h0]
        exact h1

theorem mapLookup_mapDelete_self (m : List (String × α)) (k : String)
    (hg : goodMap m) : mapLookup (mapDelete m k) k = none := by
  induction m with
  | nil => simp [mapDelete, mapLookup]
  | cons hd tl ih =>
      obtain ⟨k0, v0⟩ := hd
      rw [goodMap] at hg
      obtain ⟨h1, h2⟩ := hg
      simp only [mapDelete]
      by_cases h0 : k0 = k
      · subst h0
        rw [if_pos rfl]
        exact h1
      · rw [if_neg h0]
        simp [mapLookup, h0, ih h2]

theorem mapLookup_mapDelete (m : List (String × α)) (k k2 : String)
    (hg : goodMap m) :
    mapLookup (mapDelete m k) k2 =
      if k2 = k then none else mapLookup m k2 := by
  by_cases h : k2 = k
  · subst h
    simp [mapLookup_mapDelete_self m k2 hg]
  · simp [h, mapLookup_mapDelete_ne m k k2 h]

end MapLemmas

theorem playerOnInsert_players (s : AppState) (p : PlayerData) :
    (playerOnInsert s p).players =
      mapSet s.players p.identity.toHexString p := by
  unfold playerOnInsert
  cases h : s.identity with
  | none => rfl
  | some id =>
      by_cases h2 : p.identity.toHexString = id.toHexString <;> simp [h2]

theorem playerOnUpdate_players (s : AppState) (oldP newP : PlayerData) :
    (playerOnUpdate s oldP newP).players =
      mapSet s.players newP.identity.toHexString newP := by
  unfold playerOnUpdate
  cases h : s.identity with
  | none => rfl
  | some id =>
      by_cases h2 : newP.identity.toHexString = id.toHexString <;> simp [h2]

theorem playerOnDelete_players (s : AppState) (p : PlayerData) :
    (playerOnDelete s p).players =
      mapDelete s.players p.identity.toHexString := by
  unfold playerOnDelete
  cases h : s.identity with
  | none => rfl
  | some id =>
      by_cases h2 : p.identity.toHexString = id.toHexString <;> simp [h2]

theorem subscriptionLoadStep_players (s : AppState) (p : PlayerData) :
    (subscriptionLoadStep s p).players =
      mapSet s.players p.identity.toHexString p := by
  unfold subscriptionLoadStep
  cases h : s.identity with
  | none => rfl
  | some id =>
      by_cases h2 : p.identity.toHexString = id.toHexString <;> simp [h2]

/-- Replay invariant: folding change events through the registered table
callbacks agrees, key by key, with folding them through the reference
map, as long as the association list satisfies the key-uniqueness
invariant. -/
theorem foldl_applyPlayerEvent_lookup (events : List PlayerEvent) :
    ∀ (s : AppState) (f : String → Option PlayerData),
      (∀ k, mapLookup s.players k = f k) → goodMap s.players →
      ∀ k, mapLookup ((events.foldl applyPlayerEvent s).players) k
             = events.foldl refStep f k := by
  induction events with
  | nil =>
      intro s f hagree _ k
      simpa using hagree k
  | cons e rest ih =>
      intro s f hagree hgood k
      simp only [List.foldl_cons]
      apply ih
      · intro k2
        cases e with
        | insert p =>
            simp only [applyPlayerEvent, refStep]
            rw [playerOnInsert_players, mapLookup_mapSet, hagree k2]
        | update oldP newP =>
            simp only [applyPlayerEvent, refStep]
            rw [playerOnUpdate_players, mapLookup_mapSet, hagree k2]
        | delete p =>
            simp only [applyPlayerEvent, refStep]
            rw [playerOnDelete_players,
              mapLookup_mapDelete _ _ _ hgood, hagree k2]
      · cases e with
        | insert p =>
            simp only [applyPlayerEvent]
            rw [playerOnInsert_players]
            exact goodMap_mapSet _ _ _ hgood
        | update oldP newP =>
            simp only [applyPlayerEvent]
            rw [playerOnUpdate_players]
            exact goodMap_mapSet _ _ _ hgood
        | delete p =>
            simp only [applyPlayerEvent]
            rw [playerOnDelete_players]
            exact goodMap_mapDelete _ _ hgood

/-- Claim C5: for every finite sequence of insert/update/delete events
applied to the player mirror (starting from the empty mirror of the
initial state), the mirror's final contents agree at every key with the
replay of the same sequence, in the same order, against the reference map
keyed by the identity token's hex string, where insert and update both
set the key to the new record and delete removes the key. -/
theorem mirror_replay_equivalence (events : List PlayerEvent) (k : String) :
    mapLookup ((events.foldl applyPlayerEvent initialAppState).players) k
      = refReplay events k := by
  apply foldl_applyPlayerEvent_lookup
  · intro k2
    rfl
  · trivial

/-- Claim C1 (counterexample): the else-if chain of `determineAnimation`
checks `forward && !backward` before any diagonal branch, so the snapshot
with forward and left set resolves to direction `forward` (tag
`walk-forward`), not `left`, and the snapshot with backward and right set
resolves to `back` (tag `walk-back`), not `right`. -/
theorem diagonal_lateral_resolution_cex :
    determineAnimation
      { forward := true, backward := false, left := true, right := false,
        sprint := false, jump := false, attack := false,
        castSpell := false, sequence := 0 } = "walk-forward" ∧
    determineAnimation
      { forward := true, backward := false, left := true, right := false,
        sprint := false, jump := false, attack := false,
        castSpell := false, sequence := 0 } ≠ "walk-left" ∧
    determineAnimation
      { forward := false, backward := true, left := false, right := true,
        sprint := false, jump := false, attack := false,
        castSpell := false, sequence := 0 } = "walk-back" ∧
    determineAnimation
      { forward := false, backward := true, left := false, right := true,
        sprint := false, jump := false, attack := false,
        castSpell := false, sequence := 0 } ≠ "walk-right" := by
  refine ⟨rfl, ?_, rfl, ?_⟩ <;> decide

/-- Claim C1 (amended): with attack, castSpell and jump clear, whenever
exactly one longitudinal flag (forward or backward) is set among the
movement flags, the longitudinal flag determines the resolved direction
regardless of the lateral flags: forward yields direction `forward` and
backward yields direction `back`, prefixed by `run`/`walk` per sprint. -/
theorem longitudinal_precedence (i : InputState)
    (ha : i.attack = false) (hc : i.castSpell = false)
    (hj : i.jump = false) :
    (i.forward = true → i.backward = false →
       determineAnimation i =
         (if i.sprint then "run" else "walk") ++ "-forward") ∧
    (i.backward = true → i.forward = false →
       determineAnimation i =
         (if i.sprint then "run" else "walk") ++ "-back") := by
  obtain ⟨f, b, l, r, sp, j, a, c, n⟩ := i
  have ha2 : a = false := ha
  have hc2 : c = false := hc
  have hj2 : j = false := hj
  subst ha2 hc2 hj2
  cases f <;> cases b <;> cases l <;> cases r <;> cases sp <;>
    simp [determineAnimation]

/-- Witness for the amended C1 at the concrete diagonal input
forward+left with sprint clear. -/
theorem longitudinal_precedence_witness :
    determineAnimation
      { forward := true, backward := false, left := true, right := false,
        sprint := false, jump := false, attack := false,
        castSpell := false, sequence := 5 } = "walk" ++ "-forward" :=
  (longitudinal_precedence _ rfl rfl rfl).1 rfl rfl

/-- Claim C2: `determineAnimation` is a total function of the snapshot
and obeys the priority order attack, castSpell, jump, movement-derived,
idle for every combination of the eight flags. -/
theorem determineAnimation_priority (i : InputState) :
    (i.attack = true → determineAnimation i = "attack1") ∧
    (i.attack = false → i.castSpell = true →
       determineAnimation i = "cast") ∧
    (i.attack = false → i.castSpell = false → i.jump = true →
       determineAnimation i = "jump") ∧
    (i.attack = false → i.castSpell = false → i.jump = false →
       (i.forward || i.backward || i.left || i.right) = true →
       determineAnimation i ∉
         (["idle", "attack1", "cast", "jump"] : List String)) ∧
    (i.attack = false → i.castSpell = false → i.jump = false →
       (i.forward || i.backward || i.left || i.right) = false →
       determineAnimation i = "idle") := by
  obtain ⟨f, b, l, r, sp, j, a, c, n⟩ := i
  cases a <;> cases c <;> cases j <;> cases f <;> cases b <;> cases l <;>
    cases r <;> cases sp <;> simp [determineAnimation]

/-- Witness for C2 at concrete snapshots: with every flag set the result
is `attack1`; with none set it is `idle`. -/
theorem determineAnimation_priority_witness :
    determineAnimation
      { forward := true, backward := true, left := true, right := true,
        sprint := true, jump := true, attack := true,
        castSpell := true, sequence := 9 } = "attack1" ∧
    determineAnimation
      { forward := false, backward := false, left := false, right := false,
        sprint := false, jump := false, attack := false,
        castSpell := false, sequence := 0 } = "idle" :=
  ⟨(determineAnimation_priority _).1 rfl,
   (determineAnimation_priority _).2.2.2.2 rfl rfl rfl rfl⟩

/-- Claim C3 (counterexample): in the live code `sendInput` is a no-op,
so the overflow guard inside its commented-out body never runs: from a
connected state whose sequence is 1,000,001 (already above the 1,000,000
threshold), the next tick advances the sequence to 1,000,002 instead of
resetting it to 1. -/
theorem sequence_reset_cex :
    1000000 < overflowState.currentInput.sequence ∧
    (gameLoop 1 overflowState).1.currentInput.sequence = 1000002 ∧
    (gameLoop 1 overflowState).1.currentInput.sequence ≠ 1 := by
  refine ⟨by decide, rfl, by decide⟩

/-- Claim C3 (amended): while a session is connected the sequence counter
advances by exactly 1 on every game-loop tick, hence strictly increases;
no overflow reset ever occurs in the current local-authority
configuration, because the reset to 1 lives only in the disabled
server-authoritative dispatch body. -/
theorem sequence_strict_increase (h : Nat) (s : AppState)
    (hc : s.connected = true) (hs : s.connIsSome = true)
    (hi : s.identity.isSome = true) :
    (gameLoop h s).1.currentInput.sequence = s.currentInput.sequence + 1 := by
  unfold gameLoop
  rw [hc, hs, hi]
  rfl

/-- Witness for the amended C3 at the concrete overflow state. -/
theorem sequence_strict_increase_witness :
    (gameLoop 1 overflowState).1.currentInput.sequence =
      overflowState.currentInput.sequence + 1 :=
  sequence_strict_increase 1 overflowState rfl rfl rfl

/-- Claim C4: in the current local-authority configuration `sendInput`
is a no-op for every input snapshot: it emits no remote-procedure call
and leaves the whole component state (input snapshot, last-sent-input
reference and player mirror included) unchanged. -/
theorem sendInput_noop (s : AppState) (input : InputState) :
    sendInput s input = (s, []) := rfl

theorem foldl_subscriptionLoadStep_players (rows : List PlayerData) :
    ∀ s0 : AppState,
      (rows.foldl subscriptionLoadStep s0).players =
        rows.foldl (fun m p => mapSet m p.identity.toHexString p)
          s0.players := by
  induction rows with
  | nil =>
      intro s0
      rfl
  | cons p rest ih =>
      intro s0
      simp only [List.foldl_cons]
      rw [ih, subscriptionLoadStep_players]

/-- Claim C6: when the subscription's `onApplied` callback fires, the
player mirror is rebuilt by a full initial load of the cached server rows
exactly when the local mirror is empty at that moment (and the connection
handle is live); a non-empty mirror is left entirely unchanged. -/
theorem onSubscriptionApplied_initial_load (s : AppState)
    (rows : List PlayerData) :
    (s.players ≠ [] → onSubscriptionApplied s rows = s) ∧
    (s.connIsSome = true → s.players = [] →
      (onSubscriptionApplied s rows).players = loadPlayers rows) := by
  constructor
  · intro hne
    unfold onSubscriptionApplied
    have hlen : (s.players.length = 0 ∧ s.connIsSome = true) → False := by
      intro hand
      exact hne (List.length_eq_zero.mp hand.1)
    simp only [Bool.and_eq_true, decide_eq_true_eq]
    rw [if_neg]
    intro hand
    exact hlen ⟨hand.1, hand.2⟩
  · intro hconn hemp
    unfold onSubscriptionApplied
    rw [if_pos]
    · rw [foldl_subscriptionLoadStep_players]
      simp [loadPlayers]
    · simp [hemp, hconn]

/-- Witness for C6: a non-empty mirror survives `onApplied` untouched,
and an empty mirror with a live handle is filled from the server rows. -/
theorem onSubscriptionApplied_initial_load_witness :
    onSubscriptionApplied
        { initialAppState with players := [("aa11", samplePlayerA)] }
        [samplePlayerB]
      = { initialAppState with players := [("aa11", samplePlayerA)] } ∧
    (onSubscriptionApplied { initialAppState with connIsSome := true }
        [samplePlayerB]).players = loadPlayers [samplePlayerB] :=
  ⟨(onSubscriptionApplied_initial_load _ _).1 (List.cons_ne_nil _ _),
   (onSubscriptionApplied_initial_load _ _).2 rfl rfl⟩

/-- Claim C7: toggling a grid cell without a live connection handle emits
no remote call and leaves the selected-squares state unchanged, and
joining without a live handle likewise emits no remote call and leaves
the component state unchanged. -/
theorem disconnected_actions_noop (selectedSquares : List String)
    (key : String) (s : AppState) (username characterClass : String)
    (hs : s.connIsSome = false) :
    handleClick false selectedSquares key = (selectedSquares, []) ∧
    handleJoinGame s username characterClass = (s, []) := by
  refine ⟨rfl, ?_⟩
  unfold handleJoinGame
  rw [hs]
  rfl

/-- Witness for C7 at the initial (never-connected) state. -/
theorem disconnected_actions_noop_witness :
    handleClick false ["square-0-0"] "square-1-1" = (["square-0-0"], []) ∧
    handleJoinGame initialAppState "alice" "wizard" =
      (initialAppState, []) :=
  disconnected_actions_noop ["square-0-0"] "square-1-1" initialAppState
    "alice" "wizard" rfl

/-- Claim C8: immediately after the disconnect handler runs the player
mirror is empty, the local player record is absent and the connected flag
is false; and the very next game-loop invocation on that state cancels
the pending animation-frame handle, does not reschedule, changes nothing
else, and emits no remote call. -/
theorem onDisconnect_clears_and_loop_halts (reason : Option String)
    (s : AppState) (h : Nat) :
    (onDisconnect reason s).players = [] ∧
    (onDisconnect reason s).localPlayer = none ∧
    (onDisconnect reason s).connected = false ∧
    gameLoop h (onDisconnect reason s) =
      ({ onDisconnect reason s with animationFrameId := none }, []) :=
  ⟨rfl, rfl, rfl, rfl⟩

/-- Lower bound of the clamp used for the pitch component. -/
theorem vclampBound_nonneg : 0 ≤ vclampBound := by
  unfold vclampBound mathPI
  positivity

/-- Claim C9: mouse-motion deltas are applied to the rotation accumulator
only while pointer lock is engaged; while locked the yaw component is
updated without any bound, and the pitch component stays inside the
closed interval from -vclampBound to vclampBound whenever it started
inside it. -/
theorem handleMouseMove_spec (pointerLocked : Bool)
    (movementX movementY : ℚ) (rot : Rotation)
    (hx1 : -vclampBound ≤ rot.x) (hx2 : rot.x ≤ vclampBound) :
    (pointerLocked = false →
       handleMouseMove pointerLocked movementX movementY rot = rot) ∧
    (pointerLocked = true →
       (handleMouseMove pointerLocked movementX movementY rot).y
         = rot.y - movementX * (0.002 : ℚ)) ∧
    -vclampBound ≤ (handleMouseMove pointerLocked movementX movementY rot).x ∧
    (handleMouseMove pointerLocked movementX movementY rot).x ≤ vclampBound := by
  cases pointerLocked with
  | false =>
      exact ⟨fun _ => rfl, fun hcontra => Bool.noConfusion hcontra, hx1, hx2⟩
  | true =>
      refine ⟨fun hcontra => Bool.noConfusion hcontra, fun _ => rfl, ?_, ?_⟩
      · exact le_max_left _ _
      · apply max_le
        · exact le_trans (neg_nonpos_of_nonneg vclampBound_nonneg)
            vclampBound_nonneg
        · exact min_le_left _ _

/-- Witness for C9 with pointer lock engaged at the origin rotation. -/
theorem handleMouseMove_spec_witness :
    (handleMouseMove true 1 1 { x := 0, y := 0, z := 0 }).y
        = 0 - 1 * (0.002 : ℚ) ∧
    -vclampBound ≤ (handleMouseMove true 1 1 { x := 0, y := 0, z := 0 }).x ∧
    (handleMouseMove true 1 1 { x := 0, y := 0, z := 0 }).x ≤ vclampBound :=
  have h := handleMouseMove_spec true 1 1 { x := 0, y := 0, z := 0 }
    (neg_nonpos_of_nonneg vclampBound_nonneg) vclampBound_nonneg
  ⟨h.2.1 rfl, h.2.2.1, h.2.2.2⟩

/-- Claim C10: the animation classifier reads only the eight boolean
action flags; two snapshots agreeing on them yield the same tag no matter
their sequence counters. -/
theorem determineAnimation_ignores_sequence (i j : InputState)
    (hf : i.forward = j.forward) (hb : i.backward = j.backward)
    (hl : i.left = j.left) (hr : i.right = j.right)
    (hsp : i.sprint = j.sprint) (hj : i.jump = j.jump)
    (ha : i.attack = j.attack) (hc : i.castSpell = j.castSpell) :
    determineAnimation i = determineAnimation j :=
  calc determineAnimation i
      = determineAnimation
          { forward := i.forward, backward := i.backward, left := i.left,
            right := i.right, sprint := i.sprint, jump := i.jump,
            attack := i.attack, castSpell := i.castSpell,
            sequence := 0 } := rfl
    _ = determineAnimation
          { forward := j.forward, backward := j.backward, left := j.left,
            right := j.right, sprint := j.sprint, jump := j.jump,
            attack := j.attack, castSpell := j.castSpell,
            sequence := 0 } := by
          rw [hf, hb, hl, hr, hsp, hj, ha, hc]
    _ = determineAnimation j := rfl

/-- Witness for C10: two concrete snapshots differing only in sequence. -/
theorem determineAnimation_ignores_sequence_witness :
    determineAnimation
      { forward := true, backward := false, left := false, right := false,
        sprint := true, jump := false, attack := false,
        castSpell := false, sequence := 0 }
      = determineAnimation
      { forward := true, backward := false, left := false, right := false,
        sprint := true, jump := false, attack := false,
        castSpell := false, sequence := 123456 } :=
  determineAnimation_ignores_sequence _ _ rfl rfl rfl rfl rfl rfl rfl rfl

end PromptAndConquer
